import Mathlib

/-!
Shallow embedding of the sweep backend.  The repository holds two revisions
of the same Express server (`src/api/index.js` and `src/unnamed/part_000`);
this file embeds the confirmation retrier, the native and token
balance-change handlers, the in-memory transaction log, and the monitoring
registry with its start/stop endpoints, and settles the frozen claims
against these definitions.
-/

namespace SolSweep

abbrev Address := String
abbrev Mint := String
abbrev Signature := String
abbrev TransportError := String
abbrev SubmissionError := String

/-- Result of a resolved `connection.confirmTransaction` call: the promise
resolves with a confirmation value whose `err` field reports on-chain
failure of the transaction; transport or timeout problems reject the
promise instead (modelled as the `Except.error` side of a poll). -/
structure Confirmation where
  err : Bool
deriving DecidableEq, Repr

/-- Constant imported from `@solana/web3.js` and used by both files to
convert lamports to SOL. -/
def LAMPORTS_PER_SOL : Nat := 1000000000

/-- Attempt-indexed trace of gateway answers: `polls n` is the outcome of
the n-th `connection.confirmTransaction` call (resolve with a confirmation,
or reject with a transport/timeout error). -/
abbrev PollTrace := Nat → Except TransportError Confirmation

/-- Retry loop of `confirmTransactionWithRetries` (identical in
`src/api/index.js` lines 20-32 and `src/unnamed/part_000` lines 31-43):
`for (let attempt = 0; attempt < retries; attempt++) try { return await
confirmTransaction ... } catch (error) { if (attempt === retries - 1) throw
error; }`.  The first component is the function's result — `Except.ok
(some c)` for a `return confirmation`, `Except.error e` for a `throw`, and
`Except.ok none` when the loop falls through without running (the JS
function then returns `undefined`).  The second component counts the polls
performed. -/
def confirmAux (polls : PollTrace) (retries : Int) (attempt : Nat) :
    Except TransportError (Option Confirmation) × Nat :=
  if (attempt : Int) < retries then
    match polls attempt with
    | Except.ok c => (Except.ok (some c), 1)
    | Except.error e =>
      if (attempt : Int) = retries - 1 then (Except.error e, 1)
      else
        let r := confirmAux polls retries (attempt + 1)
        (r.1, r.2 + 1)
  else (Except.ok none, 0)
termination_by (retries - attempt).toNat
decreasing_by
  simp_wf
  omega

/-- Embeds `confirmTransactionWithRetries(connection, signature, retries,
timeout)`; the connection's polling behaviour is abstracted as the trace
`polls`, and the callers in both files use the default `retries = 3`. -/
def confirmTransactionWithRetries (polls : PollTrace) (retries : Int) :
    Except TransportError (Option Confirmation) :=
  (confirmAux polls retries 0).1

/-- Number of `connection.confirmTransaction` calls the retry loop makes. -/
def confirmPollCount (polls : PollTrace) (retries : Int) : Nat :=
  (confirmAux polls retries 0).2

/-- Concrete poll trace used as a witness: the first two polls reject with
a timeout, every later poll resolves successfully. -/
def pollsFailTwice : PollTrace := fun n =>
  if n < 2 then Except.error "timeout" else Except.ok ⟨false⟩

/-- One instruction added to a `Transaction` by either handler. -/
inductive Operation where
  | systemTransfer (fromPubkey toPubkey : Address) (lamports : Int)
  | createAssociatedTokenAccount (payer ata owner mint : Address)
  | tokenTransfer (sourceTokenAccount destTokenAccount owner : Address)
      (amount : Int)
deriving DecidableEq, Repr

/-- The external ledger client (`connection` plus the spl-token helpers)
as seen by a handler: transaction submission, the confirmation poll trace,
and associated-token-address resolution. -/
structure Gateway where
  sendTransaction : List Operation → Except SubmissionError Signature
  confirmPoll : PollTrace
  getAssociatedTokenAddress : Mint → Address → Address

/-- One object pushed onto `transactionLog`; `sender` and `receiver` stand
for the JS fields `from` and `to`.  Amounts are exact rationals: the JS
code divides numbers, and the claims are about which quantity is divided,
not about float rounding. -/
structure LedgerEntry where
  signature : Signature
  sender : Address
  receiver : Address
  amount : ℚ
  status : String
deriving DecidableEq, Repr

/-- Projection of a ledger entry onto every field except the amount. -/
def LedgerEntry.withoutAmount (e : LedgerEntry) :
    Signature × Address × Address × String :=
  (e.signature, e.sender, e.receiver, e.status)

/-- How one handler invocation settled.  `failed` is an error caught and
contained by a clean catch block (`api/index.js` only logs it);
`uncaughtReferenceError` is the error path of `src/unnamed/part_000`,
whose catch logs the error and then evaluates `error instanceof
SendTransactionError` with `SendTransactionError` never imported by that
file, so a ReferenceError is thrown out of the catch and the handler's
promise rejects instead of returning. -/
inductive HandlerOutcome where
  | ignored
  | insufficientFunds
  | swept (signature : Signature)
  | failed
  | uncaughtReferenceError
deriving DecidableEq, Repr

/-- Everything one handler invocation did: how it settled, the operations
it placed into a transaction, each operation list it passed to
`connection.sendTransaction`, and the transaction log after the call.  The
function being total models the settling of the handler's promise; whether
an error was contained by the catch (`failed`) or escaped it
(`uncaughtReferenceError`) is recorded in the outcome. -/
structure HandlerResult where
  outcome : HandlerOutcome
  opsBuilt : List Operation
  submitted : List (List Operation)
  log : List LedgerEntry
deriving DecidableEq, Repr

namespace ApiFile

/-- Embeds `handleAccountChange` of `src/api/index.js` (lines 49-82): for
`lamports > 0` it builds one system transfer of `lamports - 5000` with no
insufficiency check, submits it, confirms with the retrier, and on success
pushes a log entry whose amount is `lamports / LAMPORTS_PER_SOL` (the full
observed balance).  The WebSocket broadcast after the push carries no
state relevant to the claims and is omitted. -/
def handleAccountChange (compromisedWallet newSecureWalletPublicKey : Address)
    (gw : Gateway) (lamports : Int) (transactionLog : List LedgerEntry) :
    HandlerResult :=
  if 0 < lamports then
    let ops := [Operation.systemTransfer compromisedWallet
      newSecureWalletPublicKey (lamports - 5000)]
    match gw.sendTransaction ops with
    | Except.error _ => ⟨HandlerOutcome.failed, ops, [ops], transactionLog⟩
    | Except.ok signature =>
      match confirmTransactionWithRetries gw.confirmPoll 3 with
      | Except.error _ => ⟨HandlerOutcome.failed, ops, [ops], transactionLog⟩
      | Except.ok _ =>
        ⟨HandlerOutcome.swept signature, ops, [ops],
          transactionLog ++ [⟨signature, compromisedWallet,
            newSecureWalletPublicKey,
            (lamports : ℚ) / (LAMPORTS_PER_SOL : ℚ), "confirmed"⟩]⟩
  else ⟨HandlerOutcome.ignored, [], [], transactionLog⟩

/-- Embeds `handleTokenAccountChange` of `src/api/index.js` (lines
84-131): for `tokenAmount > 0` it resolves the destination's associated
token account for the mint, builds the ordered pair
[createAssociatedTokenAccountInstruction, createTransferInstruction of the
full amount from the watched token account (`accountInfo.address`) to the
resolved account] in one transaction, submits, confirms, and on success
pushes a log entry whose amount is the raw token amount; its catch only
logs, so errors are contained (`failed`). -/
def handleTokenAccountChange
    (compromisedWallet newSecureWalletPublicKey : Address)
    (tokenMintAddress : Mint) (sourceTokenAccount : Address) (gw : Gateway)
    (tokenAmount : Int) (transactionLog : List LedgerEntry) : HandlerResult :=
  if 0 < tokenAmount then
    let associatedTokenAccount :=
      gw.getAssociatedTokenAddress tokenMintAddress newSecureWalletPublicKey
    let ops := [Operation.createAssociatedTokenAccount compromisedWallet
        associatedTokenAccount newSecureWalletPublicKey tokenMintAddress,
      Operation.tokenTransfer sourceTokenAccount associatedTokenAccount
        compromisedWallet tokenAmount]
    match gw.sendTransaction ops with
    | Except.error _ => ⟨HandlerOutcome.failed, ops, [ops], transactionLog⟩
    | Except.ok signature =>
      match confirmTransactionWithRetries gw.confirmPoll 3 with
      | Except.error _ => ⟨HandlerOutcome.failed, ops, [ops], transactionLog⟩
      | Except.ok _ =>
        ⟨HandlerOutcome.swept signature, ops, [ops],
          transactionLog ++ [⟨signature, compromisedWallet,
            newSecureWalletPublicKey, (tokenAmount : ℚ), "confirmed"⟩]⟩
  else ⟨HandlerOutcome.ignored, [], [], transactionLog⟩

end ApiFile

namespace Part000

/-- Embeds `handleAccountChange` of `src/unnamed/part_000` (lines 60-102):
for `lamports > 0` it computes `lamportsToTransfer = lamports - 5000`,
returns early when `lamportsToTransfer <= 0` (logging "Not enough SOL"),
otherwise builds one system transfer of `lamportsToTransfer`, submits,
confirms with the retrier, and on success pushes a log entry whose amount
is `lamportsToTransfer / LAMPORTS_PER_SOL`.  When submission or
confirmation errors, the catch (lines 95-100) logs the error and then
evaluates `error instanceof SendTransactionError`; `SendTransactionError`
is never imported by this file, so a ReferenceError is thrown out of the
catch and the handler rejects (`uncaughtReferenceError`) — the transaction
log stays untouched, the push never ran. -/
def handleAccountChange (compromisedWallet newSecureWalletPublicKey : Address)
    (gw : Gateway) (lamports : Int) (transactionLog : List LedgerEntry) :
    HandlerResult :=
  if 0 < lamports then
    let transactionFee : Int := 5000
    let lamportsToTransfer := lamports - transactionFee
    if lamportsToTransfer ≤ 0 then
      ⟨HandlerOutcome.insufficientFunds, [], [], transactionLog⟩
    else
      let ops := [Operation.systemTransfer compromisedWallet
        newSecureWalletPublicKey lamportsToTransfer]
      match gw.sendTransaction ops with
      | Except.error _ =>
        ⟨HandlerOutcome.uncaughtReferenceError, ops, [ops], transactionLog⟩
      | Except.ok signature =>
        match confirmTransactionWithRetries gw.confirmPoll 3 with
        | Except.error _ =>
          ⟨HandlerOutcome.uncaughtReferenceError, ops, [ops], transactionLog⟩
        | Except.ok _ =>
          ⟨HandlerOutcome.swept signature, ops, [ops],
            transactionLog ++ [⟨signature, compromisedWallet,
              newSecureWalletPublicKey,
              (lamportsToTransfer : ℚ) / (LAMPORTS_PER_SOL : ℚ), "confirmed"⟩]⟩
  else ⟨HandlerOutcome.ignored, [], [], transactionLog⟩

/-- Embeds `handleTokenAccountChange` of `src/unnamed/part_000` (lines
104-152): it builds and submits the same ordered instruction pair as the
`api/index.js` token handler and pushes the same entry on success, but its
catch (lines 145-150) has the same unimported-`SendTransactionError` guard
as this file's native handler, so on a submission or confirmation error a
ReferenceError escapes the handler (`uncaughtReferenceError`). -/
def handleTokenAccountChange
    (compromisedWallet newSecureWalletPublicKey : Address)
    (tokenMintAddress : Mint) (sourceTokenAccount : Address) (gw : Gateway)
    (tokenAmount : Int) (transactionLog : List LedgerEntry) : HandlerResult :=
  if 0 < tokenAmount then
    let associatedTokenAccount :=
      gw.getAssociatedTokenAddress tokenMintAddress newSecureWalletPublicKey
    let ops := [Operation.createAssociatedTokenAccount compromisedWallet
        associatedTokenAccount newSecureWalletPublicKey tokenMintAddress,
      Operation.tokenTransfer sourceTokenAccount associatedTokenAccount
        compromisedWallet tokenAmount]
    match gw.sendTransaction ops with
    | Except.error _ =>
      ⟨HandlerOutcome.uncaughtReferenceError, ops, [ops], transactionLog⟩
    | Except.ok signature =>
      match confirmTransactionWithRetries gw.confirmPoll 3 with
      | Except.error _ =>
        ⟨HandlerOutcome.uncaughtReferenceError, ops, [ops], transactionLog⟩
      | Except.ok _ =>
        ⟨HandlerOutcome.swept signature, ops, [ops],
          transactionLog ++ [⟨signature, compromisedWallet,
            newSecureWalletPublicKey, (tokenAmount : ℚ), "confirmed"⟩]⟩
  else ⟨HandlerOutcome.ignored, [], [], transactionLog⟩

end Part000

/-- Gateway whose submission and confirmation always succeed. -/
def gwAccept : Gateway :=
  ⟨fun _ => Except.ok "sig1", fun _ => Except.ok ⟨false⟩, fun _ _ => "ata1"⟩

/-- Gateway whose submission is rejected. -/
def gwReject : Gateway :=
  ⟨fun _ => Except.error "blockhash not found", fun _ => Except.ok ⟨false⟩,
   fun _ _ => "ata1"⟩

/-- Gateway that accepts the submission but times out on every poll. -/
def gwTimeout : Gateway :=
  ⟨fun _ => Except.ok "sig1", fun _ => Except.error "timeout", fun _ _ => "ata1"⟩

/-- Which subscription-opening call `start` used (`onAccountChange` for the
native path, `onTokenAccountChange` when a mint was supplied). -/
inductive SubKind where
  | native
  | token
deriving DecidableEq, Repr

/-- One value of `monitoringTasks[publicKey]`: the stored subscription id,
the optional mint (whose presence routes stop to the token removal call),
and the destination wallet captured by the stored handler closures.  The
`connection` object and the handler closures themselves carry no further
state the claims need. -/
structure MonitoringTask where
  subscriptionId : Nat
  tokenMintAddress : Option Mint
  secureWallet : Address
deriving DecidableEq, Repr

/-- A subscription-removal call issued to the connection by stop. -/
inductive UnsubCall where
  | removeAccountChangeListener (subscriptionId : Nat)
  | removeProgramAccountChangeListener (subscriptionId : Nat)
deriving DecidableEq, Repr

/-- Response of the start/stop endpoints, as far as the claims observe it. -/
inductive Response where
  | started (publicKey : Address)
  | stopped
  | notFound
deriving DecidableEq, Repr

/-- HTTP status code of a response: 200 for the success bodies, 400 for
`Monitoring not found for this public key`. -/
def Response.statusCode : Response → Nat
  | Response.started _ => 200
  | Response.stopped => 200
  | Response.notFound => 400

/-- The server's module-level mutable state (`transactionLog`,
`monitoringTasks`), extended with the observable effects on the gateway:
the live subscriptions (`activeSubs`, each with the id the gateway handed
out, the watched address and the kind of subscription), a counter
producing fresh subscription ids, and the record of removal calls made. -/
structure ServerState where
  transactionLog : List LedgerEntry
  monitoringTasks : List (Address × MonitoringTask)
  activeSubs : List (Nat × Address × SubKind)
  nextSubId : Nat
  unsubCalls : List UnsubCall
deriving DecidableEq, Repr

/-- State at process start: both tables empty, no subscriptions. -/
def initialState : ServerState := ⟨[], [], [], 0, []⟩

/-- Reading `monitoringTasks[publicKey]` (an object keyed by address). -/
def lookupTask : List (Address × MonitoringTask) → Address →
    Option MonitoringTask
  | [], _ => none
  | (k, v) :: rest, a => if k = a then some v else lookupTask rest a

/-- Writing `monitoringTasks[publicKey] = task`: replaces the binding in
place when the key is present, appends it otherwise. -/
def insertTask : List (Address × MonitoringTask) → Address →
    MonitoringTask → List (Address × MonitoringTask)
  | [], a, t => [(a, t)]
  | (k, v) :: rest, a, t =>
    if k = a then (a, t) :: rest else (k, v) :: insertTask rest a t

/-- The effect of `delete monitoringTasks[publicKey]`. -/
def removeTask (l : List (Address × MonitoringTask)) (a : Address) :
    List (Address × MonitoringTask) :=
  l.filter (fun p => p.1 != a)

/-- Success path of `POST /start-monitoring` (`src/api/index.js` lines
34-150, `src/unnamed/part_000` lines 45-171) after the externally supplied
key derivation produced `compromisedAddress`: opens one subscription on
the gateway (token kind iff `tokenMintAddress` was supplied), stores the
task under the address — overwriting any existing binding without
unsubscribing it — and answers 200 with the watched address.  The
key-derivation failure path answers 500 before any of these effects and
is outside the claims. -/
def startMonitoring (s : ServerState) (compromisedAddress : Address)
    (tokenMintAddress : Option Mint) (secureWalletPublicKey : Address) :
    Response × ServerState :=
  let subKind := match tokenMintAddress with
    | some _ => SubKind.token
    | none => SubKind.native
  let subscriptionId := s.nextSubId
  let task : MonitoringTask :=
    ⟨subscriptionId, tokenMintAddress, secureWalletPublicKey⟩
  (Response.started compromisedAddress,
   { s with
      monitoringTasks := insertTask s.monitoringTasks compromisedAddress task,
      activeSubs := (subscriptionId, compromisedAddress, subKind) :: s.activeSubs,
      nextSubId := s.nextSubId + 1 })

/-- The removal call stop issues for a stored task: the token listener
removal when a mint is stored, the account listener removal otherwise. -/
def unsubCallFor (t : MonitoringTask) : UnsubCall :=
  match t.tokenMintAddress with
  | some _ => UnsubCall.removeProgramAccountChangeListener t.subscriptionId
  | none => UnsubCall.removeAccountChangeListener t.subscriptionId

/-- Embeds `POST /stop-monitoring` (`src/api/index.js` lines 152-170,
`src/unnamed/part_000` lines 173-191): when an entry exists it issues the
removal call matching the stored mint presence (the gateway then drops the
subscription with that id), deletes the entry and answers 200; otherwise
it answers 400 and changes nothing. -/
def stopMonitoring (s : ServerState) (publicKey : Address) :
    Response × ServerState :=
  match lookupTask s.monitoringTasks publicKey with
  | some t =>
    (Response.stopped,
     { s with
        monitoringTasks := removeTask s.monitoringTasks publicKey,
        activeSubs := s.activeSubs.filter (fun p => p.1 != t.subscriptionId),
        unsubCalls := s.unsubCalls ++ [unsubCallFor t] })
  | none => (Response.notFound, s)

/-- A request arriving at the registry endpoints. -/
inductive ServerOp where
  | start (compromisedAddress : Address) (tokenMintAddress : Option Mint)
      (secureWalletPublicKey : Address)
  | stop (publicKey : Address)

/-- State transition of one request. -/
def applyOp (s : ServerState) : ServerOp → ServerState
  | ServerOp.start a m sec => (startMonitoring s a m sec).2
  | ServerOp.stop a => (stopMonitoring s a).2

/-- State after a sequence of start/stop requests from process start. -/
def runOps (ops : List ServerOp) : ServerState :=
  ops.foldl applyOp initialState

/-- Number of live gateway subscriptions watching a given address. -/
def subsFor (s : ServerState) (a : Address) : Nat :=
  (s.activeSubs.filter (fun p => p.2.1 == a)).length

/-- Keys of the monitoring registry. -/
def taskKeys (s : ServerState) : List Address :=
  s.monitoringTasks.map Prod.fst

lemma confirmAux_pos (polls : PollTrace) (retries : Int) (attempt : Nat)
    (h : (attempt : Int) < retries) :
    confirmAux polls retries attempt =
      match polls attempt with
      | Except.ok c => (Except.ok (some c), 1)
      | Except.error e =>
        if (attempt : Int) = retries - 1 then (Except.error e, 1)
        else ((confirmAux polls retries (attempt + 1)).1,
              (confirmAux polls retries (attempt + 1)).2 + 1) := by
  rw [confirmAux]
  simp [h]

lemma confirmAux_neg (polls : PollTrace) (retries : Int) (attempt : Nat)
    (h : ¬ (attempt : Int) < retries) :
    confirmAux polls retries attempt = (Except.ok none, 0) := by
  rw [confirmAux]
  simp [h]

lemma confirm3_ok0 (polls : PollTrace) (c : Confirmation)
    (h : polls 0 = Except.ok c) :
    confirmTransactionWithRetries polls 3 = Except.ok (some c) ∧
    confirmPollCount polls 3 = 1 := by
  have h0 : ((0 : Nat) : Int) < 3 := by norm_num
  unfold confirmTransactionWithRetries confirmPollCount
  rw [confirmAux_pos polls 3 0 h0, h]
  exact ⟨rfl, rfl⟩

lemma confirm3_err_ok (polls : PollTrace) (e0 : TransportError)
    (c : Confirmation) (h0 : polls 0 = Except.error e0)
    (h1 : polls 1 = Except.ok c) :
    confirmTransactionWithRetries polls 3 = Except.ok (some c) ∧
    confirmPollCount polls 3 = 2 := by
  have hc0 : ((0 : Nat) : Int) < 3 := by norm_num
  have hc1 : ((1 : Nat) : Int) < 3 := by norm_num
  unfold confirmTransactionWithRetries confirmPollCount
  rw [confirmAux_pos polls 3 0 hc0, h0]
  norm_num
  rw [confirmAux_pos polls 3 1 hc1, h1]
  exact ⟨rfl, rfl⟩

lemma confirm3_err_err_ok (polls : PollTrace) (e0 e1 : TransportError)
    (c : Confirmation) (h0 : polls 0 = Except.error e0)
    (h1 : polls 1 = Except.error e1) (h2 : polls 2 = Except.ok c) :
    confirmTransactionWithRetries polls 3 = Except.ok (some c) ∧
    confirmPollCount polls 3 = 3 := by
  have hc0 : ((0 : Nat) : Int) < 3 := by norm_num
  have hc1 : ((1 : Nat) : Int) < 3 := by norm_num
  have hc2 : ((2 : Nat) : Int) < 3 := by norm_num
  unfold confirmTransactionWithRetries confirmPollCount
  rw [confirmAux_pos polls 3 0 hc0, h0]
  norm_num
  rw [confirmAux_pos polls 3 1 hc1, h1]
  norm_num
  rw [confirmAux_pos polls 3 2 hc2, h2]
  exact ⟨rfl, rfl⟩

lemma confirm3_err_err_err (polls : PollTrace) (e0 e1 e2 : TransportError)
    (h0 : polls 0 = Except.error e0) (h1 : polls 1 = Except.error e1)
    (h2 : polls 2 = Except.error e2) :
    confirmTransactionWithRetries polls 3 = Except.error e2 ∧
    confirmPollCount polls 3 = 3 := by
  have hc0 : ((0 : Nat) : Int) < 3 := by norm_num
  have hc1 : ((1 : Nat) : Int) < 3 := by norm_num
  have hc2 : ((2 : Nat) : Int) < 3 := by norm_num
  unfold confirmTransactionWithRetries confirmPollCount
  rw [confirmAux_pos polls 3 0 hc0, h0]
  norm_num
  rw [confirmAux_pos polls 3 1 hc1, h1]
  norm_num
  rw [confirmAux_pos polls 3 2 hc2, h2]
  norm_num

lemma confirm_gwAccept :
    confirmTransactionWithRetries gwAccept.confirmPoll 3 =
      Except.ok (some ⟨false⟩) :=
  (confirm3_ok0 gwAccept.confirmPoll ⟨false⟩ rfl).1

lemma confirm_gwReject :
    confirmTransactionWithRetries gwReject.confirmPoll 3 =
      Except.ok (some ⟨false⟩) :=
  (confirm3_ok0 gwReject.confirmPoll ⟨false⟩ rfl).1

lemma confirm_gwTimeout :
    confirmTransactionWithRetries gwTimeout.confirmPoll 3 =
      Except.error "timeout" :=
  (confirm3_err_err_err gwTimeout.confirmPoll "timeout" "timeout" "timeout"
    rfl rfl rfl).1

lemma send_gwAccept (ops : List Operation) :
    gwAccept.sendTransaction ops = Except.ok "sig1" := rfl

lemma send_gwReject (ops : List Operation) :
    gwReject.sendTransaction ops = Except.error "blockhash not found" := rfl

lemma send_gwTimeout (ops : List Operation) :
    gwTimeout.sendTransaction ops = Except.ok "sig1" := rfl

/-- C3: with three attempts the retrier returns the first poll that
answers — immediately (poll count k+1 when the answer comes at index k),
whatever the confirmation value `c` says (success or on-chain failure
alike, neither is retried) — it retries only on errors, and when all three
attempts error it propagates the third error to the caller. -/
theorem confirm_retries_three_spec (polls : PollTrace) :
    (∀ c, polls 0 = Except.ok c →
      confirmTransactionWithRetries polls 3 = Except.ok (some c) ∧
      confirmPollCount polls 3 = 1)
  ∧ (∀ e0 c, polls 0 = Except.error e0 → polls 1 = Except.ok c →
      confirmTransactionWithRetries polls 3 = Except.ok (some c) ∧
      confirmPollCount polls 3 = 2)
  ∧ (∀ e0 e1 c, polls 0 = Except.error e0 → polls 1 = Except.error e1 →
      polls 2 = Except.ok c →
      confirmTransactionWithRetries polls 3 = Except.ok (some c) ∧
      confirmPollCount polls 3 = 3)
  ∧ (∀ e0 e1 e2, polls 0 = Except.error e0 → polls 1 = Except.error e1 →
      polls 2 = Except.error e2 →
      confirmTransactionWithRetries polls 3 = Except.error e2 ∧
      confirmPollCount polls 3 = 3) :=
  ⟨fun c h => confirm3_ok0 polls c h,
   fun e0 c h0 h1 => confirm3_err_ok polls e0 c h0 h1,
   fun e0 e1 c h0 h1 h2 => confirm3_err_err_ok polls e0 e1 c h0 h1 h2,
   fun e0 e1 e2 h0 h1 h2 => confirm3_err_err_err polls e0 e1 e2 h0 h1 h2⟩

/-- Witness for C3 at a concrete trace: two timeouts then a success yields
the success after exactly three polls. -/
theorem confirm_retries_three_spec_witness :
    pollsFailTwice 0 = Except.error "timeout" ∧
    pollsFailTwice 1 = Except.error "timeout" ∧
    pollsFailTwice 2 = Except.ok ⟨false⟩ ∧
    (confirmTransactionWithRetries pollsFailTwice 3 = Except.ok (some ⟨false⟩) ∧
     confirmPollCount pollsFailTwice 3 = 3) :=
  ⟨rfl, rfl, rfl,
    (confirm_retries_three_spec pollsFailTwice).2.2.1 "timeout" "timeout"
      ⟨false⟩ rfl rfl rfl⟩

/-- C10: called with `retries ≤ 0` the loop body never executes: the
function makes no poll at all and returns `undefined` (modelled `Except.ok
none`) — neither a confirmation result nor a propagated error. -/
theorem confirm_retries_nonpositive (polls : PollTrace) (retries : Int)
    (h : retries ≤ 0) :
    confirmTransactionWithRetries polls retries = Except.ok none ∧
    confirmPollCount polls retries = 0 := by
  have hn : ¬ ((0 : Nat) : Int) < retries := by
    simp only [Nat.cast_zero]
    omega
  unfold confirmTransactionWithRetries confirmPollCount
  rw [confirmAux_neg polls retries 0 hn]
  exact ⟨rfl, rfl⟩

/-- Witness for C10 at `retries = 0`. -/
theorem confirm_retries_nonpositive_witness :
    (0 : Int) ≤ 0 ∧
    (confirmTransactionWithRetries pollsFailTwice 0 = Except.ok none ∧
     confirmPollCount pollsFailTwice 0 = 0) :=
  ⟨le_refl 0, confirm_retries_nonpositive pollsFailTwice 0 (le_refl 0)⟩

lemma api_eval_accept (c d : Address) (b : Int) (hb : 0 < b)
    (log : List LedgerEntry) :
    ApiFile.handleAccountChange c d gwAccept b log =
      ⟨HandlerOutcome.swept "sig1",
       [Operation.systemTransfer c d (b - 5000)],
       [[Operation.systemTransfer c d (b - 5000)]],
       log ++ [⟨"sig1", c, d, (b : ℚ) / (LAMPORTS_PER_SOL : ℚ), "confirmed"⟩]⟩ := by
  unfold ApiFile.handleAccountChange
  simp [hb, send_gwAccept, confirm_gwAccept]

lemma part000_eval_accept (c d : Address) (b : Int) (hgt : 0 < b - 5000)
    (log : List LedgerEntry) :
    Part000.handleAccountChange c d gwAccept b log =
      ⟨HandlerOutcome.swept "sig1",
       [Operation.systemTransfer c d (b - 5000)],
       [[Operation.systemTransfer c d (b - 5000)]],
       log ++ [⟨"sig1", c, d, ((b - 5000 : Int) : ℚ) / (LAMPORTS_PER_SOL : ℚ),
         "confirmed"⟩]⟩ := by
  have hb : 0 < b := by omega
  have hle : ¬ (b - 5000 ≤ 0) := by omega
  unfold Part000.handleAccountChange
  simp [hb, hle, send_gwAccept, confirm_gwAccept]

lemma api_log_unchanged_send_err (c d : Address) (gw : Gateway) (b : Int)
    (log : List LedgerEntry) (e : SubmissionError)
    (he : gw.sendTransaction [Operation.systemTransfer c d (b - 5000)] =
      Except.error e) :
    (ApiFile.handleAccountChange c d gw b log).log = log := by
  unfold ApiFile.handleAccountChange
  by_cases hb : 0 < b
  · simp [hb, he]
  · simp [hb]

lemma api_log_unchanged_confirm_err (c d : Address) (gw : Gateway) (b : Int)
    (log : List LedgerEntry) (e : TransportError)
    (he : confirmTransactionWithRetries gw.confirmPoll 3 = Except.error e) :
    (ApiFile.handleAccountChange c d gw b log).log = log := by
  unfold ApiFile.handleAccountChange
  by_cases hb : 0 < b
  · simp only [if_pos hb]
    split
    · rfl
    · simp [he]
  · simp [hb]

lemma api_appends (c d : Address) (gw : Gateway) (b : Int)
    (log : List LedgerEntry) (sig : Signature) (cf : Option Confirmation)
    (hb : 0 < b)
    (hs : gw.sendTransaction [Operation.systemTransfer c d (b - 5000)] =
      Except.ok sig)
    (hc : confirmTransactionWithRetries gw.confirmPoll 3 = Except.ok cf) :
    (ApiFile.handleAccountChange c d gw b log).log =
      log ++ [⟨sig, c, d, (b : ℚ) / (LAMPORTS_PER_SOL : ℚ), "confirmed"⟩] := by
  unfold ApiFile.handleAccountChange
  simp [hb, hs, hc]

lemma api_log_cases (c d : Address) (gw : Gateway) (b : Int)
    (log : List LedgerEntry) :
    (ApiFile.handleAccountChange c d gw b log).log = log
  ∨ (0 < b ∧ ∃ sig cf,
      gw.sendTransaction [Operation.systemTransfer c d (b - 5000)] =
        Except.ok sig ∧
      confirmTransactionWithRetries gw.confirmPoll 3 = Except.ok cf ∧
      (ApiFile.handleAccountChange c d gw b log).log =
        log ++ [⟨sig, c, d, (b : ℚ) / (LAMPORTS_PER_SOL : ℚ), "confirmed"⟩]) := by
  by_cases hb : 0 < b
  · rcases hs : gw.sendTransaction [Operation.systemTransfer c d (b - 5000)]
      with e | sig
    · exact Or.inl (api_log_unchanged_send_err c d gw b log e hs)
    · rcases hc : confirmTransactionWithRetries gw.confirmPoll 3 with e | cf
      · exact Or.inl (api_log_unchanged_confirm_err c d gw b log e hc)
      · exact Or.inr ⟨hb, sig, cf, rfl, rfl,
          api_appends c d gw b log sig cf hb hs hc⟩
  · left
    unfold ApiFile.handleAccountChange
    simp [hb]

lemma api_swept_inv (c d : Address) (gw : Gateway) (b : Int)
    (log : List LedgerEntry) (sig : Signature)
    (h : (ApiFile.handleAccountChange c d gw b log).outcome =
      HandlerOutcome.swept sig) :
    0 < b ∧
    gw.sendTransaction [Operation.systemTransfer c d (b - 5000)] =
      Except.ok sig ∧
    ∃ cf, confirmTransactionWithRetries gw.confirmPoll 3 = Except.ok cf := by
  by_cases hb : 0 < b
  · rcases hs : gw.sendTransaction [Operation.systemTransfer c d (b - 5000)]
      with e | sig'
    · exfalso
      unfold ApiFile.handleAccountChange at h
      simp [hb, hs] at h
    · rcases hc : confirmTransactionWithRetries gw.confirmPoll 3 with e | cf
      · exfalso
        unfold ApiFile.handleAccountChange at h
        simp [hb, hs, hc] at h
      · have hsig : sig' = sig := by
          unfold ApiFile.handleAccountChange at h
          simp [hb, hs, hc] at h
          exact h
        subst hsig
        exact ⟨hb, rfl, cf, rfl⟩
  · exfalso
    unfold ApiFile.handleAccountChange at h
    simp [hb] at h

lemma part000_log_unchanged_send_err (c d : Address) (gw : Gateway) (b : Int)
    (log : List LedgerEntry) (e : SubmissionError)
    (he : gw.sendTransaction [Operation.systemTransfer c d (b - 5000)] =
      Except.error e) :
    (Part000.handleAccountChange c d gw b log).log = log := by
  unfold Part000.handleAccountChange
  by_cases hb : 0 < b
  · by_cases hle : b - 5000 ≤ 0
    · simp [hb, hle]
    · simp [hb, hle, he]
  · simp [hb]

lemma part000_log_unchanged_confirm_err (c d : Address) (gw : Gateway)
    (b : Int) (log : List LedgerEntry) (e : TransportError)
    (he : confirmTransactionWithRetries gw.confirmPoll 3 = Except.error e) :
    (Part000.handleAccountChange c d gw b log).log = log := by
  unfold Part000.handleAccountChange
  by_cases hb : 0 < b
  · by_cases hle : b - 5000 ≤ 0
    · simp [hb, hle]
    · simp only [if_pos hb, if_neg hle]
      split
      · rfl
      · simp [he]
  · simp [hb]

lemma part000_appends (c d : Address) (gw : Gateway) (b : Int)
    (log : List LedgerEntry) (sig : Signature) (cf : Option Confirmation)
    (hgt : 0 < b - 5000)
    (hs : gw.sendTransaction [Operation.systemTransfer c d (b - 5000)] =
      Except.ok sig)
    (hc : confirmTransactionWithRetries gw.confirmPoll 3 = Except.ok cf) :
    (Part000.handleAccountChange c d gw b log).log =
      log ++ [⟨sig, c, d, ((b - 5000 : Int) : ℚ) / (LAMPORTS_PER_SOL : ℚ),
        "confirmed"⟩] := by
  have hb : 0 < b := by omega
  have hle : ¬ (b - 5000 ≤ 0) := by omega
  unfold Part000.handleAccountChange
  simp [hb, hle, hs, hc]

lemma part000_log_cases (c d : Address) (gw : Gateway) (b : Int)
    (log : List LedgerEntry) :
    (Part000.handleAccountChange c d gw b log).log = log
  ∨ (0 < b - 5000 ∧ ∃ sig cf,
      gw.sendTransaction [Operation.systemTransfer c d (b - 5000)] =
        Except.ok sig ∧
      confirmTransactionWithRetries gw.confirmPoll 3 = Except.ok cf ∧
      (Part000.handleAccountChange c d gw b log).log =
        log ++ [⟨sig, c, d, ((b - 5000 : Int) : ℚ) / (LAMPORTS_PER_SOL : ℚ),
          "confirmed"⟩]) := by
  by_cases hb : 0 < b
  · by_cases hle : b - 5000 ≤ 0
    · left
      unfold Part000.handleAccountChange
      simp [hb, hle]
    · rcases hs : gw.sendTransaction [Operation.systemTransfer c d (b - 5000)]
        with e | sig
      · exact Or.inl (part000_log_unchanged_send_err c d gw b log e hs)
      · rcases hc : confirmTransactionWithRetries gw.confirmPoll 3 with e | cf
        · exact Or.inl (part000_log_unchanged_confirm_err c d gw b log e hc)
        · exact Or.inr ⟨by omega, sig, cf, rfl, rfl,
            part000_appends c d gw b log sig cf (by omega) hs hc⟩
  · left
    unfold Part000.handleAccountChange
    simp [hb]

lemma part000_swept_inv (c d : Address) (gw : Gateway) (b : Int)
    (log : List LedgerEntry) (sig : Signature)
    (h : (Part000.handleAccountChange c d gw b log).outcome =
      HandlerOutcome.swept sig) :
    0 < b - 5000 ∧
    gw.sendTransaction [Operation.systemTransfer c d (b - 5000)] =
      Except.ok sig ∧
    ∃ cf, confirmTransactionWithRetries gw.confirmPoll 3 = Except.ok cf := by
  by_cases hb : 0 < b
  · by_cases hle : b - 5000 ≤ 0
    · exfalso
      unfold Part000.handleAccountChange at h
      simp [hb, hle] at h
    · rcases hs : gw.sendTransaction [Operation.systemTransfer c d (b - 5000)]
        with e | sig'
      · exfalso
        unfold Part000.handleAccountChange at h
        simp [hb, hle, hs] at h
      · rcases hc : confirmTransactionWithRetries gw.confirmPoll 3 with e | cf
        · exfalso
          unfold Part000.handleAccountChange at h
          simp [hb, hle, hs, hc] at h
        · have hsig : sig' = sig := by
            unfold Part000.handleAccountChange at h
            simp [hb, hle, hs, hc] at h
            exact h
          subst hsig
          exact ⟨by omega, rfl, cf, rfl⟩
  · exfalso
    unfold Part000.handleAccountChange at h
    simp [hb] at h

/-- C1 (amended): the `part_000` native handler, on a notification with
observed balance `b > 0`, computes `transferAmount = b - 5000`; when
`transferAmount ≤ 0` it returns the insufficient-funds outcome — no
operation built, nothing submitted, nothing appended; when
`transferAmount > 0` it builds exactly one transfer of `transferAmount`
from source to destination.  (The `api/index.js` revision of the handler
performs no such check — see the counterexample.) -/
theorem native_insufficiency_part000 (c d : Address) (gw : Gateway) (b : Int)
    (log : List LedgerEntry) (hb : 0 < b) :
    (b - 5000 ≤ 0 →
      Part000.handleAccountChange c d gw b log =
        ⟨HandlerOutcome.insufficientFunds, [], [], log⟩)
  ∧ (0 < b - 5000 →
      (Part000.handleAccountChange c d gw b log).opsBuilt =
        [Operation.systemTransfer c d (b - 5000)] ∧
      (Part000.handleAccountChange c d gw b log).submitted =
        [[Operation.systemTransfer c d (b - 5000)]]) := by
  constructor
  · intro hle
    unfold Part000.handleAccountChange
    simp [hb, hle]
  · intro hgt
    have hle : ¬ (b - 5000 ≤ 0) := by omega
    unfold Part000.handleAccountChange
    simp only [if_pos hb, if_neg hle]
    constructor <;> (split <;> first | rfl | (split <;> rfl))

/-- Witness for C1 at scenario B: a 4,000-lamport deposit makes the
`part_000` handler stop with the insufficient-funds outcome. -/
theorem native_insufficiency_part000_witness :
    (0 : Int) < 4000 ∧ (4000 : Int) - 5000 ≤ 0 ∧
    Part000.handleAccountChange "src" "dst" gwAccept 4000 [] =
      ⟨HandlerOutcome.insufficientFunds, [], [], []⟩ :=
  ⟨by norm_num, by norm_num,
   (native_insufficiency_part000 "src" "dst" gwAccept 4000 []
     (by norm_num)).1 (by norm_num)⟩

/-- Counterexample to C1 as stated: the `api/index.js` native handler has
no insufficiency check.  On a 4,000-lamport deposit (`transferAmount =
-1000 ≤ 0`) it builds a transfer operation, submits it, and — with a
gateway that accepts — even appends a ledger entry, where the claim
demands no operation, no submission and no append. -/
theorem native_insufficiency_api_counterexample :
    (0 : Int) < 4000 ∧ (4000 : Int) - 5000 ≤ 0 ∧
    (ApiFile.handleAccountChange "src" "dst" gwAccept 4000 []).opsBuilt =
      [Operation.systemTransfer "src" "dst" (-1000)] ∧
    (ApiFile.handleAccountChange "src" "dst" gwAccept 4000 []).submitted ≠
      [] ∧
    (ApiFile.handleAccountChange "src" "dst" gwAccept 4000 []).log ≠ [] := by
  have h := api_eval_accept "src" "dst" 4000 (by norm_num) []
  refine ⟨by norm_num, by norm_num, ?_, ?_, ?_⟩ <;> rw [h] <;> norm_num

/-- C2 (amended): a native sweep that reaches the confirmed state appends
exactly one entry with status "confirmed"; the `part_000` handler records
the transferred amount `(b - 5000) / LAMPORTS_PER_SOL`, while the
`api/index.js` handler records the full observed balance
`b / LAMPORTS_PER_SOL` instead (see the counterexample). -/
theorem confirmed_sweep_ledger_amount (c d : Address) (gw : Gateway)
    (b : Int) (log : List LedgerEntry) :
    (∀ sig, (Part000.handleAccountChange c d gw b log).outcome =
        HandlerOutcome.swept sig →
      (Part000.handleAccountChange c d gw b log).log =
        log ++ [⟨sig, c, d, ((b - 5000 : Int) : ℚ) / (LAMPORTS_PER_SOL : ℚ),
          "confirmed"⟩])
  ∧ (∀ sig, (ApiFile.handleAccountChange c d gw b log).outcome =
        HandlerOutcome.swept sig →
      (ApiFile.handleAccountChange c d gw b log).log =
        log ++ [⟨sig, c, d, (b : ℚ) / (LAMPORTS_PER_SOL : ℚ),
          "confirmed"⟩]) := by
  constructor
  · intro sig h
    obtain ⟨hgt, hs, cf, hc⟩ := part000_swept_inv c d gw b log sig h
    exact part000_appends c d gw b log sig cf hgt hs hc
  · intro sig h
    obtain ⟨hb, hs, cf, hc⟩ := api_swept_inv c d gw b log sig h
    exact api_appends c d gw b log sig cf hb hs hc

/-- Witness for C2 at scenario A: a 1,000,000-lamport deposit confirmed by
the `part_000` handler yields one entry of 995,000 / 10^9 SOL. -/
theorem confirmed_sweep_ledger_amount_witness :
    (Part000.handleAccountChange "src" "dst" gwAccept 1000000 []).outcome =
      HandlerOutcome.swept "sig1" ∧
    (Part000.handleAccountChange "src" "dst" gwAccept 1000000 []).log =
      [] ++ [⟨"sig1", "src", "dst",
        ((1000000 - 5000 : Int) : ℚ) / (LAMPORTS_PER_SOL : ℚ), "confirmed"⟩] := by
  have h := part000_eval_accept "src" "dst" 1000000 (by norm_num) []
  refine ⟨by rw [h], ?_⟩
  exact (confirmed_sweep_ledger_amount "src" "dst" gwAccept 1000000 []).1
    "sig1" (by rw [h])

/-- Counterexample to C2 as stated: on scenario A the `api/index.js`
handler appends amount `1000000 / 10^9 = 0.001`, not the transferred
`995000 / 10^9 = 0.000995` the claim demands. -/
theorem confirmed_sweep_amount_counterexample :
    (ApiFile.handleAccountChange "src" "dst" gwAccept 1000000 []).outcome =
      HandlerOutcome.swept "sig1" ∧
    (ApiFile.handleAccountChange "src" "dst" gwAccept 1000000 []).log =
      [⟨"sig1", "src", "dst", (1000000 : ℚ) / (1000000000 : ℚ),
        "confirmed"⟩] ∧
    (1000000 : ℚ) / (1000000000 : ℚ) ≠
      ((1000000 - 5000 : Int) : ℚ) / (1000000000 : ℚ) := by
  have h := api_eval_accept "src" "dst" 1000000 (by norm_num) []
  refine ⟨by rw [h], ?_, by norm_num⟩
  rw [h]
  norm_num [LAMPORTS_PER_SOL]

/-- C6: for every positive observed token amount `t`, whatever its
magnitude, the token handler of each file builds exactly the ordered pair
[create the destination's associated token account for the mint, transfer
the full amount `t` from the watched token account to that resolved
account] and submits it as one transaction; the pair-building code is the
same in both files (only the later catch blocks differ). -/
theorem token_transfer_pair (c d : Address) (mint : Mint)
    (sourceTokenAccount : Address) (gw : Gateway) (t : Int)
    (log : List LedgerEntry) (ht : 0 < t) :
    (ApiFile.handleTokenAccountChange c d mint sourceTokenAccount gw t
      log).opsBuilt =
      [Operation.createAssociatedTokenAccount c
        (gw.getAssociatedTokenAddress mint d) d mint,
       Operation.tokenTransfer sourceTokenAccount
        (gw.getAssociatedTokenAddress mint d) c t]
  ∧ (ApiFile.handleTokenAccountChange c d mint sourceTokenAccount gw t
      log).submitted =
      [[Operation.createAssociatedTokenAccount c
        (gw.getAssociatedTokenAddress mint d) d mint,
        Operation.tokenTransfer sourceTokenAccount
        (gw.getAssociatedTokenAddress mint d) c t]]
  ∧ (Part000.handleTokenAccountChange c d mint sourceTokenAccount gw t
      log).opsBuilt =
      [Operation.createAssociatedTokenAccount c
        (gw.getAssociatedTokenAddress mint d) d mint,
       Operation.tokenTransfer sourceTokenAccount
        (gw.getAssociatedTokenAddress mint d) c t]
  ∧ (Part000.handleTokenAccountChange c d mint sourceTokenAccount gw t
      log).submitted =
      [[Operation.createAssociatedTokenAccount c
        (gw.getAssociatedTokenAddress mint d) d mint,
        Operation.tokenTransfer sourceTokenAccount
        (gw.getAssociatedTokenAddress mint d) c t]] := by
  unfold ApiFile.handleTokenAccountChange Part000.handleTokenAccountChange
  simp only [if_pos ht]
  refine ⟨?_, ?_, ?_, ?_⟩ <;> (split <;> first | rfl | (split <;> rfl))

/-- Witness for C6 at the minimal positive amount `t = 1` (no threshold),
for both files' token handlers. -/
theorem token_transfer_pair_witness :
    (0 : Int) < 1 ∧
    (ApiFile.handleTokenAccountChange "src" "dst" "mint1" "srcTok" gwAccept 1
      []).opsBuilt =
      [Operation.createAssociatedTokenAccount "src"
        (gwAccept.getAssociatedTokenAddress "mint1" "dst") "dst" "mint1",
       Operation.tokenTransfer "srcTok"
        (gwAccept.getAssociatedTokenAddress "mint1" "dst") "src" 1] ∧
    (Part000.handleTokenAccountChange "src" "dst" "mint1" "srcTok" gwAccept 1
      []).opsBuilt =
      [Operation.createAssociatedTokenAccount "src"
        (gwAccept.getAssociatedTokenAddress "mint1" "dst") "dst" "mint1",
       Operation.tokenTransfer "srcTok"
        (gwAccept.getAssociatedTokenAddress "mint1" "dst") "src" 1] :=
  ⟨by norm_num,
   (token_transfer_pair "src" "dst" "mint1" "srcTok" gwAccept 1 []
     (by norm_num)).1,
   (token_transfer_pair "src" "dst" "mint1" "srcTok" gwAccept 1 []
     (by norm_num)).2.2.1⟩

/-- C9 (amended): whenever `b - 5000 > 0` the two native handlers build
and submit the same single transfer of `b - 5000`; when submission and
confirmation both succeed they reach the same swept outcome and their
appended entries agree on every field except the amount; on a failed
submission or an exhausted retrier they diverge — `api/index.js` contains
the error in its catch while `part_000` throws a ReferenceError out of its
catch (`SendTransactionError` unimported); and for `0 < b ≤ 5000`
`part_000` declines while `api/index.js` still builds and submits a
transfer of `b - 5000 ≤ 0`. -/
theorem handlers_native_agreement (c d : Address) (gw : Gateway) (b : Int)
    (log : List LedgerEntry) :
    (0 < b - 5000 →
      (ApiFile.handleAccountChange c d gw b log).opsBuilt =
        (Part000.handleAccountChange c d gw b log).opsBuilt ∧
      (ApiFile.handleAccountChange c d gw b log).submitted =
        (Part000.handleAccountChange c d gw b log).submitted)
  ∧ (0 < b - 5000 → ∀ sig cf,
      gw.sendTransaction [Operation.systemTransfer c d (b - 5000)] =
        Except.ok sig →
      confirmTransactionWithRetries gw.confirmPoll 3 = Except.ok cf →
      (ApiFile.handleAccountChange c d gw b log).outcome =
        HandlerOutcome.swept sig ∧
      (Part000.handleAccountChange c d gw b log).outcome =
        HandlerOutcome.swept sig ∧
      (ApiFile.handleAccountChange c d gw b log).log.map
          LedgerEntry.withoutAmount =
        (Part000.handleAccountChange c d gw b log).log.map
          LedgerEntry.withoutAmount)
  ∧ (0 < b - 5000 → ∀ e,
      gw.sendTransaction [Operation.systemTransfer c d (b - 5000)] =
        Except.error e →
      (ApiFile.handleAccountChange c d gw b log).outcome =
        HandlerOutcome.failed ∧
      (Part000.handleAccountChange c d gw b log).outcome =
        HandlerOutcome.uncaughtReferenceError)
  ∧ (0 < b - 5000 → ∀ sig e,
      gw.sendTransaction [Operation.systemTransfer c d (b - 5000)] =
        Except.ok sig →
      confirmTransactionWithRetries gw.confirmPoll 3 = Except.error e →
      (ApiFile.handleAccountChange c d gw b log).outcome =
        HandlerOutcome.failed ∧
      (Part000.handleAccountChange c d gw b log).outcome =
        HandlerOutcome.uncaughtReferenceError)
  ∧ (0 < b → b - 5000 ≤ 0 →
      Part000.handleAccountChange c d gw b log =
        ⟨HandlerOutcome.insufficientFunds, [], [], log⟩ ∧
      (ApiFile.handleAccountChange c d gw b log).submitted =
        [[Operation.systemTransfer c d (b - 5000)]]) := by
  refine ⟨?_, ?_, ?_, ?_, ?_⟩
  · intro hgt
    have hb : 0 < b := by omega
    have hle : ¬ (b - 5000 ≤ 0) := by omega
    unfold ApiFile.handleAccountChange Part000.handleAccountChange
    simp only [if_pos hb, if_neg hle]
    split
    · simp
    · split <;> simp
  · intro hgt sig cf hs hc
    have hb : 0 < b := by omega
    have hle : ¬ (b - 5000 ≤ 0) := by omega
    refine ⟨?_, ?_, ?_⟩
    · unfold ApiFile.handleAccountChange
      simp [hb, hs, hc]
    · unfold Part000.handleAccountChange
      simp [hb, hle, hs, hc]
    · rw [api_appends c d gw b log sig cf hb hs hc,
         part000_appends c d gw b log sig cf hgt hs hc]
      simp [LedgerEntry.withoutAmount]
  · intro hgt e he
    have hb : 0 < b := by omega
    have hle : ¬ (b - 5000 ≤ 0) := by omega
    constructor
    · unfold ApiFile.handleAccountChange
      simp [hb, he]
    · unfold Part000.handleAccountChange
      simp [hb, hle, he]
  · intro hgt sig e hs hc
    have hb : 0 < b := by omega
    have hle : ¬ (b - 5000 ≤ 0) := by omega
    constructor
    · unfold ApiFile.handleAccountChange
      simp [hb, hs, hc]
    · unfold Part000.handleAccountChange
      simp [hb, hle, hs, hc]
  · intro hb hle
    constructor
    · unfold Part000.handleAccountChange
      simp [hb, hle]
    · unfold ApiFile.handleAccountChange
      simp only [if_pos hb]
      split <;> first | rfl | (split <;> rfl)

/-- Witness for C9 (amended) at scenario A: on a 1,000,000-lamport deposit
with an accepting gateway both handlers reach the swept outcome and agree
on everything but the recorded amount. -/
theorem handlers_native_agreement_witness :
    (0 : Int) < 1000000 - 5000 ∧
    ((ApiFile.handleAccountChange "src" "dst" gwAccept 1000000 []).outcome =
       HandlerOutcome.swept "sig1" ∧
     (Part000.handleAccountChange "src" "dst" gwAccept 1000000 []).outcome =
       HandlerOutcome.swept "sig1" ∧
     (ApiFile.handleAccountChange "src" "dst" gwAccept 1000000 []).log.map
         LedgerEntry.withoutAmount =
       (Part000.handleAccountChange "src" "dst" gwAccept 1000000 []).log.map
         LedgerEntry.withoutAmount) :=
  ⟨by norm_num,
   (handlers_native_agreement "src" "dst" gwAccept 1000000 []).2.1
     (by norm_num) "sig1" (some ⟨false⟩) rfl confirm_gwAccept⟩

/-- Counterexample to C9 as stated: the two revisions are not behaviourally
equivalent — on the same 1,000,000-lamport deposit with the same
accepting gateway they append different ledger entries (amount 0.001
against 0.000995). -/
theorem handlers_equivalence_counterexample :
    (ApiFile.handleAccountChange "src" "dst" gwAccept 1000000 []).log ≠
      (Part000.handleAccountChange "src" "dst" gwAccept 1000000 []).log := by
  rw [api_eval_accept "src" "dst" 1000000 (by norm_num) [],
      part000_eval_accept "src" "dst" 1000000 (by norm_num) []]
  simp only [List.nil_append, ne_eq, List.cons.injEq, and_true,
    LedgerEntry.mk.injEq]
  intro h
  have hL : ((LAMPORTS_PER_SOL : ℚ)) ≠ 0 := by norm_num [LAMPORTS_PER_SOL]
  have hAmt := h.2.2.2
  rw [div_eq_div_iff hL hL] at hAmt
  norm_num [LAMPORTS_PER_SOL] at hAmt

/-- C4 (code bug in `src/unnamed/part_000`): at the failing input — a
1,000,000-lamport notification whose submission the gateway rejects, or
whose three confirmation polls all error — the `part_000` handler's catch
itself throws (`SendTransactionError` is referenced but never imported),
so the error escapes the handler instead of being caught and logged
inside it; no ledger entry is recorded on these paths, and the
`api/index.js` revision of the same handler does contain the error as the
claim and the spec's propagation policy describe. -/
theorem part000_catch_rethrows :
    (Part000.handleAccountChange "src" "dst" gwReject 1000000 []).outcome =
      HandlerOutcome.uncaughtReferenceError ∧
    (Part000.handleAccountChange "src" "dst" gwReject 1000000 []).log = [] ∧
    (Part000.handleAccountChange "src" "dst" gwTimeout 1000000 []).outcome =
      HandlerOutcome.uncaughtReferenceError ∧
    (Part000.handleAccountChange "src" "dst" gwTimeout 1000000 []).log = [] ∧
    (ApiFile.handleAccountChange "src" "dst" gwReject 1000000 []).outcome =
      HandlerOutcome.failed ∧
    (ApiFile.handleAccountChange "src" "dst" gwReject 1000000 []).log = [] := by
  refine ⟨?_, ?_, ?_, ?_, ?_, ?_⟩
  · unfold Part000.handleAccountChange
    norm_num [send_gwReject]
  · unfold Part000.handleAccountChange
    norm_num [send_gwReject]
  · unfold Part000.handleAccountChange
    norm_num [send_gwTimeout, confirm_gwTimeout]
  · unfold Part000.handleAccountChange
    norm_num [send_gwTimeout, confirm_gwTimeout]
  · unfold ApiFile.handleAccountChange
    norm_num [send_gwReject]
  · unfold ApiFile.handleAccountChange
    norm_num [send_gwReject]

lemma lookup_insertTask_self (l : List (Address × MonitoringTask))
    (a : Address) (t : MonitoringTask) :
    lookupTask (insertTask l a t) a = some t := by
  induction l with
  | nil => simp [insertTask, lookupTask]
  | cons p rest ih =>
    obtain ⟨k, v⟩ := p
    by_cases hk : k = a
    · simp [insertTask, hk, lookupTask]
    · simp [insertTask, hk, lookupTask, ih]

lemma lookup_removeTask_self (l : List (Address × MonitoringTask))
    (a : Address) :
    lookupTask (removeTask l a) a = none := by
  induction l with
  | nil => simp [removeTask, lookupTask]
  | cons p rest ih =>
    obtain ⟨k, v⟩ := p
    by_cases hk : k = a
    · subst hk
      simpa [removeTask, List.filter_cons] using ih
    · simpa [removeTask, List.filter_cons, hk, lookupTask] using ih

lemma stop_notFound (s : ServerState) (a : Address)
    (h : lookupTask s.monitoringTasks a = none) :
    stopMonitoring s a = (Response.notFound, s) := by
  unfold stopMonitoring
  rw [h]

lemma stop_found (s : ServerState) (a : Address) (t : MonitoringTask)
    (h : lookupTask s.monitoringTasks a = some t) :
    stopMonitoring s a =
      (Response.stopped,
       { s with
          monitoringTasks := removeTask s.monitoringTasks a,
          activeSubs := s.activeSubs.filter (fun p => p.1 != t.subscriptionId),
          unsubCalls := s.unsubCalls ++ [unsubCallFor t] }) := by
  unfold stopMonitoring
  rw [h]

/-- C5: stop on an address with no registry entry answers 400 and changes
nothing — neither the registry nor any live subscription; stop on an
existing entry issues the removal call matching the stored asset kind,
deletes the entry and answers success; and therefore a second stop on the
same address answers the not-found error. -/
theorem stop_monitoring_spec (s : ServerState) (a : Address) :
    (lookupTask s.monitoringTasks a = none →
      stopMonitoring s a = (Response.notFound, s) ∧
      (stopMonitoring s a).1.statusCode = 400)
  ∧ (∀ t, lookupTask s.monitoringTasks a = some t →
      (stopMonitoring s a).1 = Response.stopped ∧
      (stopMonitoring s a).1.statusCode = 200 ∧
      lookupTask (stopMonitoring s a).2.monitoringTasks a = none ∧
      (stopMonitoring s a).2.unsubCalls = s.unsubCalls ++ [unsubCallFor t] ∧
      (stopMonitoring s a).2.activeSubs =
        s.activeSubs.filter (fun p => p.1 != t.subscriptionId) ∧
      (stopMonitoring (stopMonitoring s a).2 a).1 = Response.notFound) := by
  constructor
  · intro h
    refine ⟨stop_notFound s a h, ?_⟩
    rw [stop_notFound s a h]
    rfl
  · intro t ht
    have h1 := stop_found s a t ht
    have h2 : lookupTask (stopMonitoring s a).2.monitoringTasks a = none := by
      rw [h1]
      exact lookup_removeTask_self s.monitoringTasks a
    refine ⟨?_, ?_, h2, ?_, ?_, ?_⟩
    · rw [h1]
    · rw [h1]
      rfl
    · rw [h1]
    · rw [h1]
    · rw [stop_notFound (stopMonitoring s a).2 a h2]

/-- Witness for C5: starting to watch an address then stopping twice gives
success then the 400 not-found answer. -/
theorem stop_monitoring_spec_witness :
    lookupTask (startMonitoring initialState "addr1" (some "mint1")
      "dest").2.monitoringTasks "addr1" = some ⟨0, some "mint1", "dest"⟩ ∧
    ((stopMonitoring (startMonitoring initialState "addr1" (some "mint1")
        "dest").2 "addr1").1 = Response.stopped ∧
     (stopMonitoring (startMonitoring initialState "addr1" (some "mint1")
        "dest").2 "addr1").1.statusCode = 200 ∧
     lookupTask (stopMonitoring (startMonitoring initialState "addr1"
        (some "mint1") "dest").2 "addr1").2.monitoringTasks "addr1" = none ∧
     (stopMonitoring (startMonitoring initialState "addr1" (some "mint1")
        "dest").2 "addr1").2.unsubCalls =
       (startMonitoring initialState "addr1" (some "mint1")
         "dest").2.unsubCalls ++
         [unsubCallFor ⟨0, some "mint1", "dest"⟩] ∧
     (stopMonitoring (startMonitoring initialState "addr1" (some "mint1")
        "dest").2 "addr1").2.activeSubs =
       (startMonitoring initialState "addr1" (some "mint1")
         "dest").2.activeSubs.filter (fun p =>
           p.1 != (⟨0, some "mint1", "dest"⟩ : MonitoringTask).subscriptionId) ∧
     (stopMonitoring (stopMonitoring (startMonitoring initialState "addr1"
        (some "mint1") "dest").2 "addr1").2 "addr1").1 =
       Response.notFound) :=
  ⟨by decide,
   (stop_monitoring_spec (startMonitoring initialState "addr1" (some "mint1")
     "dest").2 "addr1").2 ⟨0, some "mint1", "dest"⟩ (by decide)⟩

lemma insertTask_hit (rest : List (Address × MonitoringTask)) (a : Address)
    (v t : MonitoringTask) :
    insertTask ((a, v) :: rest) a t = (a, t) :: rest := by
  simp [insertTask]

lemma insertTask_miss (rest : List (Address × MonitoringTask)) (k a : Address)
    (v t : MonitoringTask) (hk : k ≠ a) :
    insertTask ((k, v) :: rest) a t = (k, v) :: insertTask rest a t := by
  simp [insertTask, hk]

lemma mem_map_fst_insertTask (l : List (Address × MonitoringTask))
    (a x : Address) (t : MonitoringTask) :
    x ∈ (insertTask l a t).map Prod.fst ↔
      x = a ∨ x ∈ l.map Prod.fst := by
  induction l with
  | nil => simp [insertTask]
  | cons p rest ih =>
    obtain ⟨k, v⟩ := p
    by_cases hk : k = a
    · subst hk
      rw [insertTask_hit]
      simp only [List.map_cons, List.mem_cons]
      tauto
    · rw [insertTask_miss rest k a v t hk]
      simp only [List.map_cons, List.mem_cons, ih]
      tauto

lemma nodup_insertTask (l : List (Address × MonitoringTask)) (a : Address)
    (t : MonitoringTask) (h : (l.map Prod.fst).Nodup) :
    ((insertTask l a t).map Prod.fst).Nodup := by
  induction l with
  | nil => simp [insertTask]
  | cons p rest ih =>
    obtain ⟨k, v⟩ := p
    rw [List.map_cons, List.nodup_cons] at h
    by_cases hk : k = a
    · subst hk
      rw [insertTask_hit, List.map_cons, List.nodup_cons]
      exact h
    · rw [insertTask_miss rest k a v t hk, List.map_cons, List.nodup_cons]
      refine ⟨?_, ih h.2⟩
      rw [mem_map_fst_insertTask]
      push_neg
      exact ⟨hk, h.1⟩

lemma nodup_removeTask (l : List (Address × MonitoringTask)) (a : Address)
    (h : (l.map Prod.fst).Nodup) :
    ((removeTask l a).map Prod.fst).Nodup := by
  have hsub : List.Sublist ((removeTask l a).map Prod.fst)
      (l.map Prod.fst) :=
    List.Sublist.map Prod.fst (List.filter_sublist l)
  exact h.sublist hsub

lemma nodup_applyOp (s : ServerState) (op : ServerOp)
    (h : (taskKeys s).Nodup) : (taskKeys (applyOp s op)).Nodup := by
  cases op with
  | start a m sec =>
    simpa [applyOp, startMonitoring, taskKeys] using
      nodup_insertTask s.monitoringTasks a _ h
  | stop a =>
    simp only [applyOp]
    rcases hl : lookupTask s.monitoringTasks a with _ | t
    · rw [stop_notFound s a hl]
      exact h
    · rw [stop_found s a t hl]
      simpa [taskKeys] using nodup_removeTask s.monitoringTasks a h

lemma nodup_foldl (ops : List ServerOp) (s : ServerState)
    (h : (taskKeys s).Nodup) :
    (taskKeys (ops.foldl applyOp s)).Nodup := by
  induction ops generalizing s with
  | nil => exact h
  | cons op rest ih =>
    simp only [List.foldl_cons]
    exact ih (applyOp s op) (nodup_applyOp s op h)

/-- C7 (amended): in every state reachable by start/stop requests the
monitoring registry has at most one entry per address (its keys stay
distinct); the stronger claim — at most one live gateway subscription per
address — fails, because a second start on a watched address opens a new
subscription without closing the old one (see the counterexample). -/
theorem registry_keys_unique (ops : List ServerOp) :
    (taskKeys (runOps ops)).Nodup := by
  unfold runOps
  exact nodup_foldl ops initialState (by simp [taskKeys, initialState])

/-- Counterexample to C7 as stated: after two consecutive starts on the
same address the gateway holds two live subscriptions for it. -/
theorem single_subscription_counterexample :
    1 < subsFor (runOps [ServerOp.start "addr1" none "dest",
      ServerOp.start "addr1" none "dest"]) "addr1" := by decide

/-- C8: a start on an address that already has a registry entry raises no
conflict: it answers 200 with the watched address and overwrites the entry
with the freshly issued subscription id and the new metadata. -/
theorem duplicate_start_overwrites (s : ServerState) (a : Address)
    (m : Option Mint) (sec : Address) (t0 : MonitoringTask)
    (_h : lookupTask s.monitoringTasks a = some t0) :
    (startMonitoring s a m sec).1 = Response.started a ∧
    (startMonitoring s a m sec).1.statusCode = 200 ∧
    lookupTask (startMonitoring s a m sec).2.monitoringTasks a =
      some ⟨s.nextSubId, m, sec⟩ :=
  ⟨rfl, rfl, lookup_insertTask_self s.monitoringTasks a _⟩

/-- Witness for C8: a second start on an already-watched address succeeds
and replaces the stored task with the new handle and metadata. -/
theorem duplicate_start_overwrites_witness :
    lookupTask (startMonitoring initialState "addr1" (some "mint1")
      "dest").2.monitoringTasks "addr1" = some ⟨0, some "mint1", "dest"⟩ ∧
    ((startMonitoring (startMonitoring initialState "addr1" (some "mint1")
        "dest").2 "addr1" none "dest2").1 = Response.started "addr1" ∧
     (startMonitoring (startMonitoring initialState "addr1" (some "mint1")
        "dest").2 "addr1" none "dest2").1.statusCode = 200 ∧
     lookupTask (startMonitoring (startMonitoring initialState "addr1"
        (some "mint1") "dest").2 "addr1" none "dest2").2.monitoringTasks
        "addr1" =
       some ⟨(startMonitoring initialState "addr1" (some "mint1")
         "dest").2.nextSubId, none, "dest2"⟩) :=
  ⟨by decide,
   duplicate_start_overwrites (startMonitoring initialState "addr1"
     (some "mint1") "dest").2 "addr1" none "dest2" ⟨0, some "mint1", "dest"⟩
     (by decide)⟩

end SolSweep
